import Mathlib

/-!
Verification of the agentbench agent-execution engine against its
natural-language specification.

The Lean definitions below are a shallow embedding of the Python source:

* `agentbench/sandbox/filesystem.py` — path safety (`resolve_safe_path`);
* `agentbench/agent_runner.py` — stop-reason → failure-reason mapping and
  the attempt driver;
* `agentbench/agents/loop.py` — the agent loop state machine
  (`_check_stop_conditions`, `_update_state`, the main `run` loop and the
  RUN command rewriting in `_execute_tool` / `_is_test_command`);
* `agentbench/tools/builtins.py` — `read_file`;
* `agentbench/tools/patching.py` — `apply_patch` control flow;
* `agentbench/tasks/validator.py` — `validate_baseline`.

Filesystem paths are modelled as lists of components of an absolute path;
Python `float` seconds are modelled as rationals; external effects (the
container sandbox, the external `patch` utility, the real filesystem) are
modelled as explicit oracle parameters so that every definition stays
executable.
-/

deriving instance DecidableEq for Except

namespace AgentBench

/-- Stop reasons of the agent loop (`agentbench/agents/types.py`,
`StopReason`). -/
inductive StopReason where
  | SUCCESS
  | MAX_STEPS
  | MAX_TIME
  | AGENT_GAVE_UP
  | REPEATED_FAILURE
  | TOOL_ERROR
  | LLM_ERROR
  | INTERRUPTED
deriving DecidableEq, Repr

/-- Failure taxonomy (`agentbench/scoring.py`, `FailureReason`); the file
itself is not in the source tree, but every constructor used by
`agent_runner.py`, `validator.py` and the tests is listed there, and the
spec (§7) fixes the same closed set. -/
inductive FailureReason where
  | TIMEOUT
  | AGENT_GAVE_UP
  | TOOL_ERROR
  | LLM_ERROR
  | INTERRUPTED
  | TESTS_FAILED
  | COLLECTION_ERROR
  | GIT_CLONE_FAILED
  | GIT_CHECKOUT_FAILED
  | SETUP_FAILED
  | SETUP_TIMEOUT
  | SETUP_DIRTY_WORKTREE
  | BASELINE_NOT_FAILING
  | BASELINE_MISMATCH
  | BASELINE_FLAKY
  | UNKNOWN
deriving DecidableEq, Repr

/-- The stop-reason → failure-reason mapping of
`agent_runner.py::_failure_from_stop_reason` (lines 86-105): `None` and
`SUCCESS` map to no failure; `LLM_ERROR`, `TOOL_ERROR`, `INTERRUPTED` map
to themselves; `MAX_TIME` maps to `TIMEOUT`; `MAX_STEPS`, `AGENT_GAVE_UP`
and `REPEATED_FAILURE` all map to `AGENT_GAVE_UP`. -/
def failure_from_stop_reason : Option StopReason → Option FailureReason
  | none => none
  | some .SUCCESS => none
  | some .LLM_ERROR => some .LLM_ERROR
  | some .TOOL_ERROR => some .TOOL_ERROR
  | some .MAX_TIME => some .TIMEOUT
  | some .MAX_STEPS => some .AGENT_GAVE_UP
  | some .AGENT_GAVE_UP => some .AGENT_GAVE_UP
  | some .REPEATED_FAILURE => some .AGENT_GAVE_UP
  | some .INTERRUPTED => some .INTERRUPTED


/-! ### Strings

Python `str` values are modelled as lists of characters (`PyStr`), so
that every operation the source performs on them (prefix tests, slicing,
splitting, whitespace normalisation) is kernel-computable. -/

/-- A Python string: its list of characters. -/
abbrev PyStr := List Char

/-- Characters of a Lean string literal, used to write `PyStr` values. -/
def chars (s : String) : PyStr := s.data

/-- Python `str.startswith`. -/
def startsWith (s pre : PyStr) : Bool := pre.isPrefixOf s

/-- Python substring membership `needle in hay` (an empty needle is
contained in everything). -/
def containsSub (hay needle : PyStr) : Bool :=
  needle.isPrefixOf hay ||
    match hay with
    | [] => false
    | _ :: t => containsSub t needle

/-- Python `str.split()` with no argument: split on runs of whitespace,
discarding empty fields. -/
def splitWhitespace : PyStr → List PyStr
  | [] => []
  | c :: cs =>
    if c.isWhitespace then splitWhitespace cs
    else
      match splitWhitespace cs with
      | [] => [[c]]
      | w :: ws =>
        match cs with
        | [] => [[c]]
        | d :: _ => if d.isWhitespace then [c] :: w :: ws else (c :: w) :: ws

/-- Python `" ".join(parts)`. -/
def joinSpace (parts : List PyStr) : PyStr := List.intercalate [' '] parts

/-- Python `str.split(sep)` for a one-character separator, keeping empty
fields (`"a//b"` gives `["a", "", "b"]`). -/
def splitOnChar (sep : Char) : PyStr → List PyStr
  | [] => [[]]
  | c :: cs =>
    if c == sep then [] :: splitOnChar sep cs
    else
      match splitOnChar sep cs with
      | [] => [[c]]
      | r :: rs => (c :: r) :: rs

/-- Python `str.lstrip()`: drop leading whitespace. -/
def lstrip (s : PyStr) : PyStr := s.dropWhile (·.isWhitespace)

/-- Python `str.strip()`: drop leading and trailing whitespace. -/
def strip (s : PyStr) : PyStr :=
  (((s.dropWhile (·.isWhitespace)).reverse.dropWhile (·.isWhitespace)).reverse)

/-! ### Path safety (`agentbench/sandbox/filesystem.py`)

An absolute filesystem path is modelled as the list of its components
(`/tmp/ws/a.py` is `[chars "tmp", chars "ws", chars "a.py"]`).
`Path.resolve()` is modelled as lexical canonicalisation (drop empty and
`.` components, let `..` pop the previous component, staying at the root
when there is none); symlinks are modelled by an explicit `isSymlink`
oracle over absolute paths, consulted exactly where the source calls
`is_symlink()`. -/

/-- A path component list. -/
abbrev Components := List PyStr

/-- Errors raised by `resolve_safe_path`: `PathEscapeError` and
`SymLinkError` in `filesystem.py`. -/
inductive PathError where
  | pathEscape (candidate workspace_root : Components)
  | symLink (path : Components)
deriving DecidableEq, Repr

/-- Drop empty and `.` components, as `pathlib` does when parsing. -/
def cleanComponents (l : Components) : Components :=
  l.filter (fun c => !(c == []) && !(c == ['.']))

/-- One canonicalisation step: `..` pops the last component (staying at
the filesystem root when there is none), anything else is appended. -/
def pathStep (acc : Components) (c : PyStr) : Components :=
  if c = ['.', '.'] then acc.dropLast else acc ++ [c]

/-- Lexical canonicalisation of a component list, modelling
`Path.resolve()` on a symlink-free tree. -/
def resolveComponents (l : Components) : Components :=
  (cleanComponents l).foldl pathStep []

/-- Python `str.strip('/')`: remove leading and trailing slashes. -/
def stripSlashes (s : PyStr) : PyStr :=
  ((s.dropWhile (· == '/')).reverse.dropWhile (· == '/')).reverse

/-- The prefix-stripping chain at the top of `resolve_safe_path`
(`filesystem.py` lines 36-53): `repo`, `repo/…`, `/workspace/repo`,
`/workspace/repo/…`, `/workspace`, `/workspace/…` are stripped down to the
workspace-relative remainder, and any other leading slash is stripped. -/
def stripWorkspacePrefixes (relative_path : PyStr) : PyStr :=
  let workspacePre := chars "/workspace"
  let repoPre := chars "/workspace/repo"
  if relative_path = chars "repo" then []
  else if startsWith relative_path (chars "repo/") then
    relative_path.drop (chars "repo/").length
  else if relative_path = repoPre then []
  else if startsWith relative_path (repoPre ++ ['/']) then
    relative_path.drop (repoPre.length + 1)
  else if relative_path = workspacePre then []
  else if startsWith relative_path (workspacePre ++ ['/']) then
    relative_path.drop (workspacePre.length + 1)
  else if startsWith relative_path ['/'] then stripSlashes relative_path
  else relative_path

/-- The symlink walk of `resolve_safe_path` (lines 61-69): starting from
the workspace root, append one component of the candidate at a time and
fail on the first partial path that is a symlink. -/
def symlinkWalk (isSymlink : Components → Bool) :
    Components → Components → Option Components
  | _, [] => none
  | sofar, p :: ps =>
    let nxt := sofar ++ [p]
    if isSymlink nxt then some nxt else symlinkWalk isSymlink nxt ps

/-- `filesystem.py::resolve_safe_path`: canonicalise the workspace root,
strip well-known absolute prefixes from the user path, join (an absolute
remainder replaces the root, as in `pathlib`), canonicalise, reject
candidates that are not inside the root, then (unless `allow_symlinks`)
reject candidates whose component walk hits a symlink. -/
def resolve_safe_path (isSymlink : Components → Bool)
    (workspace_root : Components) (relative_path : PyStr)
    (allow_symlinks : Bool) : Except PathError Components :=
  let root := resolveComponents workspace_root
  let rel := stripWorkspacePrefixes relative_path
  let joined :=
    if startsWith rel ['/'] then splitOnChar '/' rel
    else root ++ splitOnChar '/' rel
  let candidate := resolveComponents joined
  if root.isPrefixOf candidate then
    if allow_symlinks then .ok candidate
    else
      match symlinkWalk isSymlink root (candidate.drop root.length) with
      | some bad => .error (.symLink bad)
      | none => .ok candidate
  else .error (.pathEscape candidate root)

/-! ### Tool and agent data model (`agentbench/tools/contract.py`,
`agentbench/agents/types.py`)

`ToolResult.data` is a JSON dict in the source; it is modelled as an
optional record holding exactly the keys the agent loop reads
(`combined_output`, `is_test_command`, `patch_path`), with `none`
standing for an absent (or empty, hence falsy) dict.  Timestamps and
durations carry no control flow and are omitted; elapsed wall-clock time
enters through explicit rational-valued oracle parameters instead. -/

/-- The five tool kinds. -/
inductive ToolName where
  | LIST_FILES
  | READ_FILE
  | SEARCH
  | APPLY_PATCH
  | RUN
deriving DecidableEq, Repr

/-- Tool result status. -/
inductive ToolStatus where
  | SUCCESS
  | ERROR
deriving DecidableEq, Repr

/-- Agent decision tag. -/
inductive AgentDecision where
  | CALL_TOOL
  | STOP
deriving DecidableEq, Repr

/-- A tool error: taxonomy kind, message, and a details map modelled as
an association list. -/
structure ToolError where
  error_type : PyStr
  message : PyStr
  details : List (PyStr × PyStr)
deriving DecidableEq, Repr

/-- The `data` payload keys of a tool result that the agent loop reads. -/
structure ToolData where
  combined_output : Option PyStr
  is_test_command : Bool
  patch_path : Option PyStr
deriving DecidableEq, Repr

/-- A tool request: tool kind, parameter map, request identifier. -/
structure ToolRequest where
  tool : ToolName
  params : List (PyStr × PyStr)
  request_id : PyStr
deriving DecidableEq, Repr

/-- A tool result (`tools/contract.py::ToolResult`, timing fields
omitted). -/
structure ToolResult where
  request_id : PyStr
  tool : ToolName
  status : ToolStatus
  data : Option ToolData
  error : Option ToolError
  exit_code : Option Int
deriving DecidableEq, Repr

/-- Agent state between steps (`agents/types.py::AgentState`; the
`started_at` timestamp is represented indirectly by the elapsed-seconds
oracle fed to `updateState`). -/
structure AgentState where
  run_id : PyStr
  task_id : PyStr
  step_number : Nat
  tool_history : List (ToolRequest × ToolResult)
  patches_applied : List PyStr
  last_test_exit_code : Option Int
  last_test_output : Option PyStr
  budget_remaining_steps : Int
  budget_remaining_sec : ℚ
  test_command : PyStr
deriving DecidableEq, Repr

/-- An agent action: CALL_TOOL with a request, or STOP with a reason. -/
structure AgentAction where
  decision : AgentDecision
  tool_request : Option ToolRequest
  stop_reason : Option StopReason
deriving DecidableEq, Repr

/-- Terminal loop value (`agents/types.py::AgentResult`, duration
omitted). -/
structure AgentResult where
  success : Bool
  stop_reason : StopReason
  steps_taken : Nat
  patches_applied : List PyStr
  final_test_exit_code : Option Int
  final_test_passed : Bool
deriving DecidableEq, Repr

/-- Loop budgets (`agents/types.py::AgentBudget`). -/
structure AgentBudget where
  max_steps : Int
  max_time_sec : Int
  max_patch_attempts : Int
  repeated_failure_threshold : Nat
deriving DecidableEq, Repr

/-- The pydantic field bounds on `AgentBudget` (`ge=1 le=100`,
`ge=60 le=3600`, `ge=1 le=50`, `ge=2 le=10`). -/
def AgentBudget.Valid (b : AgentBudget) : Prop :=
  1 ≤ b.max_steps ∧ b.max_steps ≤ 100
    ∧ 60 ≤ b.max_time_sec ∧ b.max_time_sec ≤ 3600
    ∧ 1 ≤ b.max_patch_attempts ∧ b.max_patch_attempts ≤ 50
    ∧ 2 ≤ b.repeated_failure_threshold ∧ b.repeated_failure_threshold ≤ 10

/-! ### The agent loop (`agentbench/agents/loop.py`) -/

/-- Python `max` on integers. -/
def pyMaxInt (a b : Int) : Int := if a ≤ b then b else a

/-- Python `max` on (rational-modelled) floats. -/
def pyMaxRat (a b : ℚ) : ℚ := if a ≤ b then b else a

/-- Subtraction on ℚ written through `mkRat` (kernel-computable, and
equal to `a - b` by `ratSub_eq` below). -/
def ratSub (a b : ℚ) : ℚ := mkRat (a.num * b.den - b.num * a.den) (a.den * b.den)

/-- Python slice `l[-k:]`: the last `k` elements (all of them when the
list is shorter). -/
def takeLast {α : Type} (k : Nat) (l : List α) : List α :=
  l.drop (l.length - k)

/-- The `combined_output` values of RUN entries of the tool history, in
order, skipping entries without a data payload or without the key —
the `outputs` list built by `AgentLoop._check_stop_conditions`
(`loop.py` lines 482-490). -/
def runOutputs (state : AgentState) : List PyStr :=
  state.tool_history.filterMap (fun pr =>
    if pr.1.tool = ToolName.RUN then
      match pr.2.data with
      | none => none
      | some d => d.combined_output
    else none)

/-- `AgentLoop._check_stop_conditions` (`loop.py` lines 473-497): SUCCESS
when the last test exit code is zero, MAX_STEPS when the step budget is
exhausted, MAX_TIME when the time budget is exhausted, REPEATED_FAILURE
when the last `repeated_failure_threshold` RUN outputs exist and are all
identical; otherwise no stop. -/
def checkStopConditions (budget : AgentBudget) (state : AgentState) :
    Option StopReason :=
  if state.last_test_exit_code = some 0 then some .SUCCESS
  else if state.budget_remaining_steps ≤ 0 then some .MAX_STEPS
  else if state.budget_remaining_sec ≤ 0 then some .MAX_TIME
  else
    let threshold := budget.repeated_failure_threshold
    let outputs := runOutputs state
    if threshold ≤ outputs.length then
      match takeLast threshold outputs with
      | [] => none
      | t :: ts => if ts.all (fun o => o == t) then some .REPEATED_FAILURE else none
    else none

/-- `AgentLoop._update_state` (`loop.py` lines 499-551): increment the
step number, decrement the step budget with floor 0, recompute the time
budget with floor 0 from the elapsed wall clock, append the
`(request, result)` pair for CALL_TOOL actions, append the patch artifact
path after a successful APPLY_PATCH, and overwrite the last test exit
code and output after any RUN.  `elapsed` is the wall-clock seconds since
loop start at this call; `fallbackOutput` is what
`_read_and_truncate_output` would return when the result payload carries
no (or an empty, hence falsy) `combined_output`. -/
def updateState (budget : AgentBudget) (elapsed : ℚ) (fallbackOutput : PyStr)
    (state : AgentState) (action : AgentAction) (result : Option ToolResult) :
    AgentState :=
  let callTool := action.decision = AgentDecision.CALL_TOOL
  let tool_history :=
    match action.tool_request, result with
    | some req, some res =>
      if callTool then state.tool_history ++ [(req, res)] else state.tool_history
    | _, _ => state.tool_history
  let patches_applied :=
    match action.tool_request, result with
    | some req, some res =>
      if callTool ∧ req.tool = ToolName.APPLY_PATCH
          ∧ res.status = ToolStatus.SUCCESS then
        match res.data with
        | some d =>
          match d.patch_path with
          | some pp => if pp ≠ [] then state.patches_applied ++ [pp]
                       else state.patches_applied
          | none => state.patches_applied
        | none => state.patches_applied
      else state.patches_applied
    | _, _ => state.patches_applied
  let lastPair :=
    match action.tool_request, result with
    | some req, some res =>
      if callTool ∧ req.tool = ToolName.RUN then
        let output :=
          match res.data with
          | some d =>
            match d.combined_output with
            | some o => if o ≠ [] then o else fallbackOutput
            | none => fallbackOutput
          | none => fallbackOutput
        (res.exit_code, some output)
      else (state.last_test_exit_code, state.last_test_output)
    | _, _ => (state.last_test_exit_code, state.last_test_output)
  { run_id := state.run_id
    task_id := state.task_id
    step_number := state.step_number + 1
    tool_history := tool_history
    patches_applied := patches_applied
    last_test_exit_code := lastPair.1
    last_test_output := lastPair.2
    budget_remaining_steps := pyMaxInt 0 (state.budget_remaining_steps - 1)
    budget_remaining_sec := pyMaxRat 0 (ratSub (budget.max_time_sec : ℚ) elapsed)
    test_command := state.test_command }

/-- The initial agent state built by `AgentLoop.run` (`loop.py` lines
87-99) after a failing initial test run. -/
def initialState (budget : AgentBudget) (run_id task_id test_command : PyStr)
    (exit_code : Int) (output : PyStr) : AgentState :=
  { run_id := run_id
    task_id := task_id
    step_number := 0
    tool_history := []
    patches_applied := []
    last_test_exit_code := some exit_code
    last_test_output := some output
    budget_remaining_steps := budget.max_steps
    budget_remaining_sec := (budget.max_time_sec : ℚ)
    test_command := test_command }

/-- Externally observable side effects of one loop iteration, in order:
an `agent.decide` call, a tool execution, a state update. -/
inductive SideEffect where
  | decide
  | execute (tool : ToolName)
  | update
deriving DecidableEq, Repr

/-- The environment the loop interacts with.  `agentDecide` models
`agent.decide` (an `Except` error models a raised exception);
`execTool n req` models `_execute_tool`, indexed by the tool-step
counter; `elapsedAt n` is the wall clock elapsed at the state update
following execution `n`; `fallbackAt n` is the corresponding
`_read_and_truncate_output` fallback. -/
structure LoopEnv where
  agentDecide : AgentState → Except PyStr AgentAction
  execTool : Nat → ToolRequest → ToolResult
  elapsedAt : Nat → ℚ
  fallbackAt : Nat → PyStr
  repoSeparate : Bool
  testCommand : PyStr

/-- The result assembled when a stop condition fires, the agent STOPs, or
the loop errors out (`loop.py` lines 110-120, 140-171): success iff the
stop reason is SUCCESS, final exit/pass taken from the state. -/
def resultFromState (state : AgentState) (reason : StopReason) : AgentResult :=
  { success := decide (reason = StopReason.SUCCESS)
    stop_reason := reason
    steps_taken := state.step_number
    patches_applied := state.patches_applied
    final_test_exit_code := state.last_test_exit_code
    final_test_passed := decide (state.last_test_exit_code = some 0) }

/-- The result returned on an error path where `final_test_passed` is
hard-coded `False` (`loop.py` lines 130-138, 163-171, 187-195). -/
def errorResultFromState (state : AgentState) (reason : StopReason) :
    AgentResult :=
  { success := false
    stop_reason := reason
    steps_taken := state.step_number
    patches_applied := state.patches_applied
    final_test_exit_code := state.last_test_exit_code
    final_test_passed := false }

/-- The success result returned when a RUN of the task test command
exits zero (`loop.py` lines 217-229 and 232-246). -/
def successResult (state : AgentState) (exit_code : Option Int) : AgentResult :=
  { success := true
    stop_reason := StopReason.SUCCESS
    steps_taken := state.step_number
    patches_applied := state.patches_applied
    final_test_exit_code := exit_code
    final_test_passed := true }

/-- The `is_test_command` flag of a result payload, read with dict
default `False` as in `result.data.get("is_test_command", False)`. -/
def resultIsTest (res : ToolResult) : Bool :=
  match res.data with
  | some d => d.is_test_command
  | none => false

/-- Whether a result error is the tolerated expected-test-failure case:
tool RUN with error kind `abnormal_exit` (`loop.py` lines 178-182). -/
def isExpectedTestFailure (req : ToolRequest) (res : ToolResult) : Bool :=
  match res.error with
  | some e => decide (req.tool = ToolName.RUN) && (e.error_type == chars "abnormal_exit")
  | none => false

/-- Decimal digits of a natural number, for synthesized identifiers. -/
def natChars (n : Nat) : PyStr := Nat.toDigits 10 n

/-- The iteration of `AgentLoop.run` (`loop.py` lines 101-246), fuelled
for termination, returning the emitted side-effect trace and the result
(`none` only on fuel exhaustion).  Each iteration: stop check; decide
(exception → LLM_ERROR, STOP → agent's reason, missing request →
TOOL_ERROR); execute and update; classify errors (only RUN
`abnormal_exit` is tolerated); after a successful APPLY_PATCH,
auto-execute a RUN of the task test command and update again, returning
SUCCESS if it is the test command and exits zero; return SUCCESS when a
RUN of the test command exits zero; otherwise iterate. -/
def loopGo (env : LoopEnv) (budget : AgentBudget) :
    Nat → Nat → AgentState → List SideEffect × Option AgentResult
  | 0, _, _ => ([], none)
  | fuel + 1, n, state =>
    match checkStopConditions budget state with
    | some reason => ([], some (resultFromState state reason))
    | none =>
      match env.agentDecide state with
      | .error _ => ([.decide], some (errorResultFromState state StopReason.LLM_ERROR))
      | .ok action =>
        if action.decision = AgentDecision.STOP then
          ([.decide],
            some (resultFromState state
              (action.stop_reason.getD StopReason.AGENT_GAVE_UP)))
        else
          match action.tool_request with
          | none => ([.decide], some (errorResultFromState state StopReason.TOOL_ERROR))
          | some req =>
            let res := env.execTool n req
            let state1 := updateState budget (env.elapsedAt n) (env.fallbackAt n)
              state action (some res)
            if res.status = ToolStatus.ERROR ∧ isExpectedTestFailure req res = false then
              ([.decide, .execute req.tool, .update],
                some (errorResultFromState state1 StopReason.TOOL_ERROR))
            else if req.tool = ToolName.APPLY_PATCH
                ∧ res.status = ToolStatus.SUCCESS then
              let autoReq : ToolRequest :=
                { tool := ToolName.RUN
                  params := [(chars "command", env.testCommand)]
                  request_id := chars "auto_run_" ++ natChars state.step_number }
              let autoAction : AgentAction :=
                { decision := AgentDecision.CALL_TOOL
                  tool_request := some autoReq
                  stop_reason := none }
              let autoRes := env.execTool (n + 1) autoReq
              let state2 := updateState budget (env.elapsedAt (n + 1))
                (env.fallbackAt (n + 1)) state1 autoAction (some autoRes)
              if resultIsTest autoRes = true ∧ autoRes.exit_code = some 0 then
                ([.decide, .execute req.tool, .update, .execute ToolName.RUN, .update],
                  some (successResult state2 autoRes.exit_code))
              else
                ([.decide, .execute req.tool, .update, .execute ToolName.RUN, .update]
                    ++ (loopGo env budget fuel (n + 2) state2).1,
                  (loopGo env budget fuel (n + 2) state2).2)
            else if req.tool = ToolName.RUN ∧ resultIsTest res = true
                ∧ res.exit_code = some 0 then
              ([.decide, .execute req.tool, .update],
                some (successResult state1 res.exit_code))
            else
              ([.decide, .execute req.tool, .update]
                  ++ (loopGo env budget fuel (n + 1) state1).1,
                (loopGo env budget fuel (n + 1) state1).2)

/-- `AgentLoop.run` (`loop.py` lines 71-101): an initial test exit of
zero returns immediate SUCCESS with zero steps; otherwise the loop
iterates from the initial state. -/
def agentLoopRun (env : LoopEnv) (budget : AgentBudget)
    (run_id task_id : PyStr) (initExit : Int) (initOutput : PyStr)
    (fuel : Nat) : List SideEffect × Option AgentResult :=
  if initExit = 0 then
    ([], some
      { success := true
        stop_reason := StopReason.SUCCESS
        steps_taken := 0
        patches_applied := []
        final_test_exit_code := some initExit
        final_test_passed := true })
  else
    loopGo env budget fuel 0
      (initialState budget run_id task_id env.testCommand initExit initOutput)

/-- The trace shape asserted by the claim: per step exactly one decide,
one tool execution, one state update (a final lone decide belongs to a
step that terminated the loop during `decide`). -/
def isStrictStepTrace : List SideEffect → Bool
  | [] => true
  | [SideEffect.decide] => true
  | SideEffect.decide :: SideEffect.execute _ :: SideEffect.update :: rest =>
    isStrictStepTrace rest
  | _ => false

/-- The trace shape the loop actually produces: blocks of
decide-execute-update, where a successful APPLY_PATCH block additionally
carries the auto-run RUN execution and a second update before the next
decide. -/
def isLoopTrace : List SideEffect → Bool
  | [] => true
  | [SideEffect.decide] => true
  | SideEffect.decide :: SideEffect.execute ToolName.APPLY_PATCH :: SideEffect.update ::
      SideEffect.execute ToolName.RUN :: SideEffect.update :: rest => isLoopTrace rest
  | SideEffect.decide :: SideEffect.execute _ :: SideEffect.update :: rest =>
    isLoopTrace rest
  | _ => false

/-! ### RUN command rewriting (`loop.py` lines 410-420, 573-586) -/

/-- Python `" ".join(command.split())`: whitespace normalisation. -/
def normalizeWs (s : PyStr) : PyStr := joinSpace (splitWhitespace s)

/-- `AgentLoop._is_test_command`: after whitespace normalisation, the
command is the test command or contains it as a substring. -/
def is_test_command (test_command command : PyStr) : Bool :=
  let cmdNormalized := normalizeWs command
  let testNormalized := normalizeWs test_command
  containsSub cmdNormalized testNormalized || cmdNormalized == testNormalized

/-- The command string actually passed to the sandbox by the RUN branch
of `AgentLoop._execute_tool` (lines 410-416): when the agent command is
recognised as the test command, the parts `["cd repo"?, test_command]`
joined with `" && "` replace it; otherwise the agent command is run
verbatim.  `repoSeparate` is `repo_root != workspace_root`, i.e. a
`repo/` subdirectory exists. -/
def runCommandExecuted (repoSeparate : Bool) (test_command command : PyStr) :
    PyStr :=
  if is_test_command test_command command then
    List.intercalate (chars " && ")
      ((if repoSeparate then [chars "cd repo"] else []) ++ [test_command])
  else command

/-! ### READ_FILE (`agentbench/tools/builtins.py::read_file`) -/

/-- READ_FILE request parameters (`start_line` and `end_line` are the
caller-requested range). -/
structure ReadFileParams where
  path : PyStr
  start_line : Option Int
  end_line : Option Int
deriving DecidableEq, Repr

/-- The success payload of READ_FILE. -/
structure ReadFileData where
  content : PyStr
  truncated : Bool
  total_lines : Nat
  start_line : Nat
  end_line : Option Nat
  lines_included : Option PyStr
deriving DecidableEq, Repr

/-- Python `"\n".join(lines)`. -/
def joinNl (lines : List PyStr) : PyStr := List.intercalate ['\n'] lines

/-- `builtins.py::read_file` (lines 120-172), successful path, on a file
whose newline-stripped lines are `fileLines`: collect the first 5000
lines and a 5000-deep deque of the remainder; below 10001 total lines the
content is everything and `truncated` is false, above that the content is
head, an explicit `... [truncated] ...` marker, and tail; the reported
`start_line` is the constant 1.  The request parameters are taken by the
embedding (as by the source) without being consulted. -/
def read_file (params : ReadFileParams) (fileLines : List PyStr) :
    ReadFileData :=
  let total_lines := fileLines.length
  let first_lines := fileLines.take 5000
  let last_buffer := takeLast 5000 (fileLines.drop 5000)
  if total_lines ≤ 10000 then
    { content := joinNl (first_lines ++ last_buffer)
      truncated := false
      total_lines := total_lines
      start_line := 1
      end_line := some total_lines
      lines_included := none }
  else
    { content := joinNl first_lines ++ chars "\n\n... [truncated] ...\n\n"
        ++ joinNl last_buffer
      truncated := true
      total_lines := total_lines
      start_line := 1
      end_line := none
      lines_included := some (chars "1-5000, " ++ natChars (total_lines - 4999)
        ++ ['-'] ++ natChars total_lines) }

/-! ### APPLY_PATCH (`agentbench/tools/patching.py::apply_patch`)

The control flow of `apply_patch` (lines 762-968) is embedded with the
pure-but-long text normalisers, the external `patch` utility, and the two
in-Python apply paths abstracted as oracle fields: each normaliser is a
function `text → (normalized, changed)` exactly as in the source, and the
external tool is a deterministic map from the patch text handed to it to
its dry-run exit code and stderr. -/

/-- Oracles for the patch pipeline. -/
structure PatchEnv where
  normalizeSplitHeaders : PyStr → PyStr × Bool
  normalizePatchHeaders : PyStr → PyStr × Bool
  normalizeHunkPrefixes : PyStr → PyStr × Bool
  normalizePatchPaths : PyStr → PyStr × Bool
  normalizeHunkCounts : PyStr → PyStr × Bool
  normalizeNoeofMarkers : PyStr → PyStr × Bool
  dryRunExit : PyStr → Int
  dryRunStderr : PyStr → PyStr
  applyBeginPatch : PyStr → Except PyStr (List PyStr)
  looksLikeContextPatch : PyStr → Bool
  applyContextPatch : PyStr → Except PyStr (List PyStr)
  parsedChangedFiles : PyStr → List PyStr

/-- The outcome of `apply_patch`, i.e. the status / data / error fields
of the returned `ToolResult` (sizes counted in characters). -/
inductive PatchOutcome where
  | success (changed_files : List PyStr) (patch_size : Nat)
  | failure (error_type : PyStr) (message : PyStr) (details : List (PyStr × PyStr))
deriving DecidableEq, Repr

/-- Whether a patch outcome is a success result. -/
def PatchOutcome.isSuccess : PatchOutcome → Bool
  | .success _ _ => true
  | .failure _ _ _ => false

/-- `patching.py::apply_patch` (lines 762-968).  Strict mode rejects the
Begin Patch envelope outright; the envelope otherwise goes through the
in-Python applier.  Unified diffs are normalised (four unconditional
rewrites unless strict), dry-run through the external tool, re-normalised
and re-dry-run (hunk counts, then no-EOF markers) while failing, and, if
still failing and not strict: applied as a context patch when they look
like one, else rejected with the dry-run stderr in the details.  When the
final dry-run state is not a non-strict failure the real apply runs with
its exit code unchecked and a success result is returned. -/
def apply_patch (env : PatchEnv) (strict_patch : Bool) (unified_diff : PyStr) :
    PatchOutcome :=
  let patch_text := unified_diff
  if strict_patch ∧ startsWith (lstrip patch_text) (chars "*** Begin Patch") then
    .failure (chars "patch_hunk_fail")
      (chars "Strict patch mode rejects Begin Patch format.") []
  else if startsWith (lstrip patch_text) (chars "*** Begin Patch") then
    match env.applyBeginPatch patch_text with
    | .error msg => .failure (chars "patch_hunk_fail") msg []
    | .ok changed_files => .success changed_files patch_text.length
  else
    let p4 :=
      if strict_patch then patch_text
      else
        let q1 := (fun r => if r.2 then r.1 else patch_text)
          (env.normalizeSplitHeaders patch_text)
        let q2 := (fun r => if r.2 then r.1 else q1) (env.normalizePatchHeaders q1)
        let q3 := (fun r => if r.2 then r.1 else q2) (env.normalizeHunkPrefixes q2)
        (fun r => if r.2 then r.1 else q3) (env.normalizePatchPaths q3)
    let rc1 := env.dryRunExit p4
    let s5 :=
      if rc1 ≠ 0 ∧ ¬strict_patch then
        let r := env.normalizeHunkCounts p4
        if r.2 then (r.1, env.dryRunExit r.1) else (p4, rc1)
      else (p4, rc1)
    let s6 :=
      if s5.2 ≠ 0 ∧ ¬strict_patch then
        let r := env.normalizeNoeofMarkers s5.1
        if r.2 then (r.1, env.dryRunExit r.1) else s5
      else s5
    if s6.2 ≠ 0 ∧ ¬strict_patch then
      if env.looksLikeContextPatch s6.1 then
        match env.applyContextPatch s6.1 with
        | .error msg =>
          .failure (chars "patch_hunk_fail") msg
            [(chars "stderr", env.dryRunStderr s6.1)]
        | .ok changed_files => .success changed_files s6.1.length
      else
        .failure (chars "patch_hunk_fail") (chars "Patch does not apply cleanly")
          [(chars "stderr", env.dryRunStderr s6.1)]
    else
      .success (env.parsedChangedFiles s6.1) unified_diff.length

/-! ### Event stream of one attempt (`agentbench/util/events.py`,
`agentbench/agent_runner.py`, `agentbench/agents/scripted.py`) -/

/-- Event kinds appended to `events.jsonl`. -/
inductive EventType where
  | tool_call_started
  | tool_call_finished
  | agent_turn_started
  | agent_turn_finished
  | agent_finished
  | patch_applied
  | tests_started
  | tests_finished
  | command_started
  | command_finished
  | llm_request_started
  | llm_request_finished
  | llm_request_failed
deriving DecidableEq, Repr

/-- Branch outcomes of a `ScriptedAgent.run` execution that determine
which events it logs. -/
structure ScriptedOutcome where
  setupNeeded : Bool
  setupExit : Int
  patchFails : Bool
  runFails : Bool
deriving DecidableEq, Repr

/-- The `events.jsonl` kinds appended by `ScriptedAgent.run`
(`scripted.py` lines 62-332) through its internal `EventLogger`: optional
setup command events (early return on non-zero setup exit); three
list/read/search turns; the patch turn (early return before
`tool_call_finished` on a patch error, `patch_applied` before it on
success); the run turn (tests_started, early return on a RUN tool error,
tests_finished then a final agent_turn_finished otherwise).  No
`agent_finished` is ever logged. -/
def scriptedRunEvents (o : ScriptedOutcome) : List EventType :=
  (if o.setupNeeded then [.command_started, .command_finished] else []) ++
  (if o.setupNeeded ∧ o.setupExit ≠ 0 then [] else
    [.agent_turn_started, .tool_call_started, .tool_call_finished, .agent_turn_finished,
     .agent_turn_started, .tool_call_started, .tool_call_finished, .agent_turn_finished,
     .agent_turn_started, .tool_call_started, .tool_call_finished, .agent_turn_finished,
     .agent_turn_started, .tool_call_started] ++
    (if o.patchFails then [] else
      [.patch_applied, .tool_call_finished, .agent_turn_finished,
       .agent_turn_started, .tool_call_started, .tests_started] ++
      (if o.runFails then [] else
        [.tool_call_finished, .tests_finished, .agent_turn_finished])))

/-- The full `events.jsonl` kind stream of one `run_agent_attempt`
(`agent_runner.py` lines 174-255): for the `scripted` entrypoint the
runner creates no `EventLogger` (line 174), the scripted agent logs
through its own logger into the same file, and the final
`log_agent_finished` guard (`if event_logger and result`) is skipped; for
every other entrypoint the loop (and the LLM agent) log `loopEvents`, and
`agent_finished` is appended afterwards exactly when an agent result was
produced, with nothing logged after it. -/
def run_agent_attempt_events (entrypoint : PyStr) (scripted : ScriptedOutcome)
    (loopEvents : List EventType) (resultProduced : Bool) : List EventType :=
  if entrypoint = chars "scripted" then scriptedRunEvents scripted
  else if resultProduced then loopEvents ++ [.agent_finished]
  else loopEvents

/-! ### Baseline validation (`agentbench/tasks/validator.py`,
`agentbench/agent_runner.py`)

External effects of `validate_baseline` — git commands, the sandboxed
setup/test runs, regex expectation evaluation and output signatures —
are provided as a record of stage outcomes.  The `AttemptContext` helper
(`agentbench/util/attempt.py`, not in the source tree) is modelled from
the spec as plain record keeping: `set_exit_code` / `set_failure_reason`
store the values later copied into the returned `ValidationResult`, and
`valid` starts false and is set true only at the very end. -/

/-- Stage outcomes of one baseline validation. -/
structure BaselineEnv where
  cloneExit : Int
  checkoutExit : Int
  setupCommands : List PyStr
  setupExit : Int
  statusExit : Int
  diffStatExit : Int
  diffExit : Int
  statusStdout : PyStr
  runExit : Int
  hasValidation : Bool
  validationMismatches : List PyStr
  rerunRemaining : ℚ
  rerunExit : Int
  signaturesEqual : Bool
deriving DecidableEq, Repr

/-- The fields of `ValidationResult` that carry control flow
(`tasks/models.py`): validity, recorded exit code, failure kind. -/
structure ValidationResult where
  valid : Bool
  exit_code : Int
  error_reason : Option FailureReason
deriving DecidableEq, Repr

/-- Modelled from the spec: `FailureReason.from_pytest_exit_code` lives
in `agentbench/scoring.py`, which is absent from the source tree.  Spec
§7: "derive the failure reason from the test runner's exit code (e.g.,
1 = `TESTS_FAILED`, 2 = `COLLECTION_ERROR`, specific higher values =
internal/config/usage errors)"; the higher pytest categories 3-5 are
collapsed to `UNKNOWN` here since only being distinct from
`TESTS_FAILED` matters downstream. -/
def from_pytest_exit_code (exit_code : Int) : Option FailureReason :=
  if exit_code = 1 then some .TESTS_FAILED
  else if exit_code = 2 then some .COLLECTION_ERROR
  else if exit_code = 3 ∨ exit_code = 4 ∨ exit_code = 5 then some .UNKNOWN
  else none

/-- `validator.py::validate_baseline` (lines 123-486): clone, checkout,
setup (an empty joined setup command is skipped and treated as exit 0,
exit 124 is a setup timeout), post-setup git inspection, the
dirty-worktree check on `git status --porcelain` output, then the test
run: exit 0 is `BASELINE_NOT_FAILING`; a pytest category other than
tests-failed fails the baseline; validation-hint mismatches are
`BASELINE_MISMATCH`; with at least 5 seconds remaining the test is rerun
and a differing exit code or failure signature is `BASELINE_FLAKY`. -/
def validate_baseline (env : BaselineEnv) : ValidationResult :=
  if env.cloneExit ≠ 0 then
    { valid := false, exit_code := env.cloneExit,
      error_reason := some .GIT_CLONE_FAILED }
  else if env.checkoutExit ≠ 0 then
    { valid := false, exit_code := env.checkoutExit,
      error_reason := some .GIT_CHECKOUT_FAILED }
  else
    let setupExit :=
      if strip (List.intercalate (chars " && ") env.setupCommands) ≠ [] then
        env.setupExit
      else 0
    if setupExit ≠ 0 then
      if setupExit = 124 then
        { valid := false, exit_code := setupExit,
          error_reason := some .SETUP_TIMEOUT }
      else
        { valid := false, exit_code := setupExit,
          error_reason := some .SETUP_FAILED }
    else if env.statusExit ≠ 0 ∨ env.diffStatExit ≠ 0 ∨ env.diffExit ≠ 0 then
      { valid := false
        exit_code :=
          if env.statusExit ≠ 0 then env.statusExit
          else if env.diffStatExit ≠ 0 then env.diffStatExit
          else env.diffExit
        error_reason := some .UNKNOWN }
    else if strip env.statusStdout ≠ [] then
      { valid := false, exit_code := setupExit,
        error_reason := some .SETUP_DIRTY_WORKTREE }
    else if env.runExit = 0 then
      { valid := false, exit_code := 0,
        error_reason := some .BASELINE_NOT_FAILING }
    else
      let fr := from_pytest_exit_code env.runExit
      if fr ≠ none ∧ fr ≠ some FailureReason.TESTS_FAILED then
        { valid := false, exit_code := env.runExit, error_reason := fr }
      else if env.hasValidation ∧ env.validationMismatches ≠ [] then
        { valid := false, exit_code := env.runExit,
          error_reason := some .BASELINE_MISMATCH }
      else if env.rerunRemaining < 5 then
        { valid := true, exit_code := env.runExit, error_reason := none }
      else if env.rerunExit ≠ env.runExit ∨ env.signaturesEqual = false then
        { valid := false, exit_code := env.rerunExit,
          error_reason := some .BASELINE_FLAKY }
      else
        { valid := true, exit_code := env.runExit, error_reason := none }

/-- The baseline gate of `run_agent_attempt` (`agent_runner.py` lines
160-172): a validation exit code of zero raises before any agent is
instantiated, so the agent loop is entered only for a non-zero baseline
exit code. -/
def agentLoopEntered (vr : ValidationResult) : Bool :=
  !(vr.exit_code == 0)

/-! ### Concrete executions used as evidence -/

/-- A budget with `max_steps = 5` and default remaining fields. -/
def exampleApBudget : AgentBudget :=
  { max_steps := 5, max_time_sec := 600, max_patch_attempts := 10,
    repeated_failure_threshold := 3 }

/-- A successful APPLY_PATCH result carrying its artifact path. -/
def exampleApPatchResult : ToolResult :=
  { request_id := chars "r-1", tool := .APPLY_PATCH, status := .SUCCESS,
    data := some { combined_output := none, is_test_command := false,
                   patch_path := some (chars "diffs/step_0001.patch") },
    error := none, exit_code := none }

/-- A failing (exit 1) RUN of the test command, with the tolerated
`abnormal_exit` error kind. -/
def exampleApRunResult : ToolResult :=
  { request_id := chars "auto", tool := .RUN, status := .ERROR,
    data := some { combined_output := some (chars "1 failed"),
                   is_test_command := true, patch_path := none },
    error := some { error_type := chars "abnormal_exit",
                    message := chars "exit 1", details := [] },
    exit_code := some 1 }

/-- A loop environment whose agent applies one patch (successfully) and
then stops; the auto-run of the test command after the patch fails with
exit 1. -/
def exampleApEnv : LoopEnv :=
  { agentDecide := fun st =>
      if st.step_number = 0 then
        .ok { decision := .CALL_TOOL,
              tool_request := some { tool := .APPLY_PATCH,
                                     params := [(chars "unified_diff", chars "--- a/f")],
                                     request_id := chars "r-1" },
              stop_reason := none }
      else .ok { decision := .STOP, tool_request := none,
                 stop_reason := some .AGENT_GAVE_UP }
    execTool := fun n _ => if n = 0 then exampleApPatchResult else exampleApRunResult
    elapsedAt := fun _ => 1
    fallbackAt := fun _ => []
    repoSeparate := true
    testCommand := chars "pytest -q" }

/-- A budget with `max_steps = 1` (the smallest the pydantic bounds
allow). -/
def exampleRunBudget : AgentBudget :=
  { max_steps := 1, max_time_sec := 600, max_patch_attempts := 10,
    repeated_failure_threshold := 3 }

/-- A RUN result of a non-test shell command that exits 0. -/
def exampleRunResult : ToolResult :=
  { request_id := chars "r-1", tool := .RUN, status := .SUCCESS,
    data := some { combined_output := some (chars "ok"),
                   is_test_command := false, patch_path := none },
    error := none, exit_code := some 0 }

/-- The action requesting that RUN. -/
def exampleRunAction : AgentAction :=
  { decision := .CALL_TOOL,
    tool_request := some { tool := .RUN,
                           params := [(chars "command", chars "true")],
                           request_id := chars "r-1" },
    stop_reason := none }

/-- A loop environment whose agent always runs the shell command `true`
(not the test command), which exits 0. -/
def exampleRunEnv : LoopEnv :=
  { agentDecide := fun _ => .ok exampleRunAction
    execTool := fun _ _ => exampleRunResult
    elapsedAt := fun _ => 1
    fallbackAt := fun _ => []
    repoSeparate := true
    testCommand := chars "pytest -q" }

/-- The state the loop reaches after that RUN: step budget exhausted,
last test exit code overwritten to 0 by the non-test command. -/
def exampleStateAfterRun : AgentState :=
  updateState exampleRunBudget 1 []
    (initialState exampleRunBudget (chars "r") (chars "t") (chars "pytest -q")
      1 (chars "F"))
    exampleRunAction (some exampleRunResult)

/-- A patch-pipeline oracle on which every dry run fails with exit 1 and
nothing looks like a context patch, modelling a canonical unified diff
whose hunks do not match the workspace. -/
def exampleFailPatchEnv : PatchEnv :=
  { normalizeSplitHeaders := fun t => (t, false)
    normalizePatchHeaders := fun t => (t, false)
    normalizeHunkPrefixes := fun t => (t, false)
    normalizePatchPaths := fun t => (t, false)
    normalizeHunkCounts := fun t => (t, false)
    normalizeNoeofMarkers := fun t => (t, false)
    dryRunExit := fun _ => 1
    dryRunStderr := fun _ => chars "1 out of 1 hunk FAILED"
    applyBeginPatch := fun _ => .error (chars "unused")
    looksLikeContextPatch := fun _ => false
    applyContextPatch := fun _ => .error (chars "unused")
    parsedChangedFiles := fun _ => [chars "src/f.py"] }

/-- A canonical unified diff text (not a Begin Patch envelope). -/
def exampleDiffText : PyStr :=
  chars "--- a/src/f.py\n+++ b/src/f.py\n@@ -1 +1 @@\n-x\n+y\n"

/-- A RUN history entry whose result carries the given combined output
and a failing exit code. -/
def exampleRepeatEntry (o : PyStr) : ToolRequest × ToolResult :=
  ({ tool := .RUN, params := [(chars "command", chars "pytest -q")],
     request_id := chars "r" },
   { request_id := chars "r", tool := .RUN, status := .ERROR,
     data := some { combined_output := some o, is_test_command := true,
                    patch_path := none },
     error := some { error_type := chars "abnormal_exit",
                     message := chars "exit 1", details := [] },
     exit_code := some 1 })

/-- A state holding three identical failing RUN outputs with budget
remaining and a failing last test. -/
def exampleRepeatState : AgentState :=
  { run_id := chars "r", task_id := chars "t", step_number := 3
    tool_history := [exampleRepeatEntry (chars "1 failed"),
      exampleRepeatEntry (chars "1 failed"),
      exampleRepeatEntry (chars "1 failed")]
    patches_applied := []
    last_test_exit_code := some 1
    last_test_output := some (chars "1 failed")
    budget_remaining_steps := 2
    budget_remaining_sec := 100
    test_command := chars "pytest -q" }

/-- A state whose step budget is exhausted while its test still fails. -/
def exampleExhaustedState : AgentState :=
  { run_id := chars "r", task_id := chars "t", step_number := 5
    tool_history := []
    patches_applied := []
    last_test_exit_code := some 1
    last_test_output := some (chars "1 failed")
    budget_remaining_steps := 0
    budget_remaining_sec := 50
    test_command := chars "pytest -q" }

/-- A baseline run on which every stage succeeds but the test command
exits 0. -/
def exampleBaselineEnv : BaselineEnv :=
  { cloneExit := 0, checkoutExit := 0
    setupCommands := [chars "pip install -e ."]
    setupExit := 0, statusExit := 0, diffStatExit := 0, diffExit := 0
    statusStdout := []
    runExit := 0
    hasValidation := false, validationMismatches := []
    rerunRemaining := 100, rerunExit := 0, signaturesEqual := true }

end AgentBench

/-- The kernel-computable subtraction used in the state update agrees
with rational subtraction. -/
theorem ratSub_eq (a b : ℚ) : AgentBench.ratSub a b = a - b :=
  (Rat.sub_def' a b).symm

/-- Components appended by the canonicalisation fold are never empty,
`.` or `..`, provided the accumulator already satisfies that. -/
theorem foldl_pathStep_good (l acc : AgentBench.Components)
    (hacc : ∀ c ∈ acc, c ≠ [] ∧ c ≠ ['.'] ∧ c ≠ ['.', '.'])
    (hl : ∀ c ∈ l, c ≠ [] ∧ c ≠ ['.']) :
    ∀ c ∈ l.foldl AgentBench.pathStep acc,
      c ≠ [] ∧ c ≠ ['.'] ∧ c ≠ ['.', '.'] := by
  induction l generalizing acc with
  | nil => simpa using hacc
  | cons x xs ih =>
    simp only [List.foldl_cons]
    refine ih (AgentBench.pathStep acc x) ?_
      (fun c hc => hl c (List.mem_cons_of_mem _ hc))
    intro c hc
    unfold AgentBench.pathStep at hc
    by_cases hx : x = ['.', '.']
    · simp only [hx, if_pos rfl] at hc
      exact hacc c (List.dropLast_subset _ hc)
    · simp only [if_neg hx, List.mem_append, List.mem_singleton] at hc
      rcases hc with hc | hc
      · exact hacc c hc
      · subst hc
        exact ⟨(hl c (List.mem_cons_self _ _)).1, (hl c (List.mem_cons_self _ _)).2, hx⟩

/-- Every component of a canonicalised path is a real name: not empty,
not `.`, not `..`. -/
theorem resolveComponents_good (l : AgentBench.Components) :
    ∀ c ∈ AgentBench.resolveComponents l, c ≠ [] ∧ c ≠ ['.'] ∧ c ≠ ['.', '.'] := by
  unfold AgentBench.resolveComponents
  refine foldl_pathStep_good _ [] (by simp) ?_
  intro c hc
  unfold AgentBench.cleanComponents at hc
  simp only [List.mem_filter, Bool.and_eq_true, Bool.not_eq_true',
    beq_eq_false_iff_ne, ne_eq] at hc
  exact ⟨hc.2.1, hc.2.2⟩

/-- Folding the canonicalisation step over components with no `..` just
appends them. -/
theorem foldl_pathStep_append (l acc : AgentBench.Components)
    (hl : ∀ c ∈ l, c ≠ ['.', '.']) :
    l.foldl AgentBench.pathStep acc = acc ++ l := by
  induction l generalizing acc with
  | nil => simp
  | cons x xs ih =>
    have hx : x ≠ ['.', '.'] := hl x (List.mem_cons_self _ _)
    simp only [List.foldl_cons]
    rw [show AgentBench.pathStep acc x = acc ++ [x] from if_neg hx]
    rw [ih (acc ++ [x]) (fun c hc => hl c (List.mem_cons_of_mem _ hc))]
    simp

/-- Canonicalisation is idempotent: a canonical path canonicalises to
itself. -/
theorem resolveComponents_idem (l : AgentBench.Components) :
    AgentBench.resolveComponents (AgentBench.resolveComponents l)
      = AgentBench.resolveComponents l := by
  have hgood := resolveComponents_good l
  have hclean : AgentBench.cleanComponents (AgentBench.resolveComponents l)
      = AgentBench.resolveComponents l := by
    unfold AgentBench.cleanComponents
    refine List.filter_eq_self.mpr ?_
    intro a ha
    have := hgood a ha
    simp [this.1, this.2.1]
  have h2 : AgentBench.resolveComponents (AgentBench.resolveComponents l)
      = (AgentBench.cleanComponents (AgentBench.resolveComponents l)).foldl
          AgentBench.pathStep [] := rfl
  rw [h2, hclean, foldl_pathStep_append _ [] (fun c hc => (hgood c hc).2.2)]
  simp

/-- C1: for every workspace root and every caller-supplied path string,
`resolve_safe_path` either raises an error (`PathEscapeError` or
`SymLinkError`) or returns a path that is canonical (its canonical form
is itself) and is a descendant of the canonical workspace root; it never
returns a path outside the root. -/
theorem claim_C1_path_containment (isSymlink : AgentBench.Components → Bool)
    (workspace_root : AgentBench.Components) (relative_path : AgentBench.PyStr)
    (allow_symlinks : Bool) (p : AgentBench.Components)
    (h : AgentBench.resolve_safe_path isSymlink workspace_root relative_path
        allow_symlinks = .ok p) :
    (AgentBench.resolveComponents workspace_root).isPrefixOf p = true
    ∧ AgentBench.resolveComponents p = p := by
  simp only [AgentBench.resolve_safe_path] at h
  generalize hcand : AgentBench.resolveComponents
      (if AgentBench.startsWith
          (AgentBench.stripWorkspacePrefixes relative_path) ['/'] = true then
        AgentBench.splitOnChar '/'
          (AgentBench.stripWorkspacePrefixes relative_path)
      else AgentBench.resolveComponents workspace_root ++
        AgentBench.splitOnChar '/'
          (AgentBench.stripWorkspacePrefixes relative_path)) = cand at h
  have hidem : AgentBench.resolveComponents cand = cand := by
    rw [← hcand]
    exact resolveComponents_idem _
  split at h
  · split at h
    · injection h with h
      subst h
      exact ⟨by assumption, hidem⟩
    · split at h
      · cases h
      · injection h with h
        subst h
        exact ⟨by assumption, hidem⟩
  · cases h

/-- Witness for C1 at a concrete input: resolving `src/main.py` inside
the workspace `/tmp/ws` succeeds and the result stays under the root. -/
theorem claim_C1_witness :
    (AgentBench.resolveComponents
        [AgentBench.chars "tmp", AgentBench.chars "ws"]).isPrefixOf
      [AgentBench.chars "tmp", AgentBench.chars "ws",
        AgentBench.chars "src", AgentBench.chars "main.py"] = true
    ∧ AgentBench.resolveComponents
        [AgentBench.chars "tmp", AgentBench.chars "ws",
          AgentBench.chars "src", AgentBench.chars "main.py"]
      = [AgentBench.chars "tmp", AgentBench.chars "ws",
          AgentBench.chars "src", AgentBench.chars "main.py"] :=
  claim_C1_path_containment (fun _ => false)
    [AgentBench.chars "tmp", AgentBench.chars "ws"]
    (AgentBench.chars "src/main.py") false
    [AgentBench.chars "tmp", AgentBench.chars "ws",
      AgentBench.chars "src", AgentBench.chars "main.py"] (by decide)

/-- C4: the stop-reason-to-failure-reason mapping holds for all eight
stop reasons: SUCCESS maps to no failure, MAX_TIME to TIMEOUT, each of
MAX_STEPS, AGENT_GAVE_UP and REPEATED_FAILURE to AGENT_GAVE_UP,
TOOL_ERROR to TOOL_ERROR, LLM_ERROR to LLM_ERROR, and INTERRUPTED to
INTERRUPTED. -/
theorem claim_C4_stop_to_failure_mapping :
    AgentBench.failure_from_stop_reason (some .SUCCESS) = none
    ∧ AgentBench.failure_from_stop_reason (some .MAX_TIME)
        = some AgentBench.FailureReason.TIMEOUT
    ∧ AgentBench.failure_from_stop_reason (some .MAX_STEPS)
        = some AgentBench.FailureReason.AGENT_GAVE_UP
    ∧ AgentBench.failure_from_stop_reason (some .AGENT_GAVE_UP)
        = some AgentBench.FailureReason.AGENT_GAVE_UP
    ∧ AgentBench.failure_from_stop_reason (some .REPEATED_FAILURE)
        = some AgentBench.FailureReason.AGENT_GAVE_UP
    ∧ AgentBench.failure_from_stop_reason (some .TOOL_ERROR)
        = some AgentBench.FailureReason.TOOL_ERROR
    ∧ AgentBench.failure_from_stop_reason (some .LLM_ERROR)
        = some AgentBench.FailureReason.LLM_ERROR
    ∧ AgentBench.failure_from_stop_reason (some .INTERRUPTED)
        = some AgentBench.FailureReason.INTERRUPTED :=
  ⟨rfl, rfl, rfl, rfl, rfl, rfl, rfl, rfl⟩

/-- C6: when the agent state holds at least three RUN outputs whose last
three are byte-identical, the last test exit code is non-zero and both
budgets are still positive, the next termination check (with the default
threshold 3) returns REPEATED_FAILURE. -/
theorem claim_C6_repeated_failure (budget : AgentBench.AgentBudget)
    (state : AgentBench.AgentState) (o : AgentBench.PyStr)
    (hthr : budget.repeated_failure_threshold = 3)
    (hexit : state.last_test_exit_code ≠ some 0)
    (hsteps : 0 < state.budget_remaining_steps)
    (hsec : 0 < state.budget_remaining_sec)
    (htail : AgentBench.takeLast 3 (AgentBench.runOutputs state) = [o, o, o]) :
    AgentBench.checkStopConditions budget state
      = some AgentBench.StopReason.REPEATED_FAILURE := by
  have hlen : 3 ≤ (AgentBench.runOutputs state).length := by
    have := congrArg List.length htail
    simp only [AgentBench.takeLast, List.length_drop, List.length_cons,
      List.length_nil] at this
    omega
  simp only [AgentBench.checkStopConditions]
  rw [if_neg hexit, if_neg (not_le.mpr hsteps), if_neg (not_le.mpr hsec), hthr,
    if_pos hlen, htail]
  simp

/-- Witness for C6 at a concrete state with three identical failing RUN
outputs and positive budgets. -/
theorem claim_C6_witness :
    AgentBench.checkStopConditions AgentBench.exampleApBudget
      AgentBench.exampleRepeatState
      = some AgentBench.StopReason.REPEATED_FAILURE :=
  claim_C6_repeated_failure AgentBench.exampleApBudget
    AgentBench.exampleRepeatState (AgentBench.chars "1 failed")
    (by decide) (by decide) (by decide) (by decide) (by decide)

/-- C7 (amended): budget counters never go negative — the state update
floors both at 0 and the initial state starts them at the (positive)
configured limits — and once either reaches zero the next termination
check fires and the loop returns at it; the stop reason is MAX_STEPS
(resp. MAX_TIME) provided the last test exit code is not zero, in which
case SUCCESS takes precedence, MAX_STEPS taking precedence over MAX_TIME
when both budgets are exhausted. -/
theorem claim_C7_budget_safety (budget : AgentBench.AgentBudget)
    (hb : budget.Valid) (elapsed : ℚ) (fallback : AgentBench.PyStr)
    (state : AgentBench.AgentState) (action : AgentBench.AgentAction)
    (result : Option AgentBench.ToolResult)
    (run_id task_id tc : AgentBench.PyStr) (e0 : Int)
    (out0 : AgentBench.PyStr) (env : AgentBench.LoopEnv) (n fuel : Nat) :
    0 ≤ (AgentBench.updateState budget elapsed fallback state action
          result).budget_remaining_steps
    ∧ 0 ≤ (AgentBench.updateState budget elapsed fallback state action
          result).budget_remaining_sec
    ∧ 0 ≤ (AgentBench.initialState budget run_id task_id tc e0
          out0).budget_remaining_steps
    ∧ 0 ≤ (AgentBench.initialState budget run_id task_id tc e0
          out0).budget_remaining_sec
    ∧ ((state.budget_remaining_steps ≤ 0 ∨ state.budget_remaining_sec ≤ 0) →
        (AgentBench.checkStopConditions budget state).isSome = true)
    ∧ (∀ reason, AgentBench.checkStopConditions budget state = some reason →
        AgentBench.loopGo env budget (fuel + 1) n state
          = ([], some (AgentBench.resultFromState state reason)))
    ∧ (state.budget_remaining_steps ≤ 0 → state.last_test_exit_code ≠ some 0 →
        AgentBench.checkStopConditions budget state
          = some AgentBench.StopReason.MAX_STEPS)
    ∧ (state.budget_remaining_sec ≤ 0 → ¬state.budget_remaining_steps ≤ 0 →
        state.last_test_exit_code ≠ some 0 →
        AgentBench.checkStopConditions budget state
          = some AgentBench.StopReason.MAX_TIME) := by
  refine ⟨?_, ?_, ?_, ?_, ?_, ?_, ?_, ?_⟩
  · simp only [AgentBench.updateState, AgentBench.pyMaxInt]
    split <;> omega
  · simp only [AgentBench.updateState, AgentBench.pyMaxRat]
    split
    · assumption
    · exact le_refl 0
  · simp only [AgentBench.initialState]
    have := hb.1
    omega
  · simp only [AgentBench.initialState]
    exact Int.cast_nonneg.mpr (by have := hb.2.2.1; omega)
  · intro h
    simp only [AgentBench.checkStopConditions]
    split
    · rfl
    · split
      · rfl
      · split
        · rfl
        · rcases h with h | h
          · exact absurd h (by assumption)
          · exact absurd h (by assumption)
  · intro reason hreason
    simp [AgentBench.loopGo, hreason]
  · intro hsteps hexit
    simp only [AgentBench.checkStopConditions]
    rw [if_neg hexit, if_pos hsteps]
  · intro hsec hsteps hexit
    simp only [AgentBench.checkStopConditions]
    rw [if_neg hexit, if_neg hsteps, if_pos hsec]

/-- Witness for C7 at a concrete exhausted state: the step budget is
zero, the last test still fails, and the next check returns MAX_STEPS. -/
theorem claim_C7_witness :
    AgentBench.checkStopConditions AgentBench.exampleApBudget
      AgentBench.exampleExhaustedState
      = some AgentBench.StopReason.MAX_STEPS :=
  (claim_C7_budget_safety AgentBench.exampleApBudget
    ⟨by decide, by decide, by decide, by decide,
     by decide, by decide, by decide, by decide⟩ 1 []
    AgentBench.exampleExhaustedState AgentBench.exampleRunAction
    (some AgentBench.exampleRunResult) (AgentBench.chars "r")
    (AgentBench.chars "t") (AgentBench.chars "pytest -q") 1 []
    AgentBench.exampleRunEnv 0 3).2.2.2.2.2.2.1 (by decide) (by decide)

/-- Counterexample for C7 as stated: a loop run (`max_steps = 1`, agent
runs the non-test shell command `true` which exits 0) drives the step
budget to zero, yet the next termination check returns SUCCESS — not
MAX_STEPS — because the zero exit code of the last RUN takes precedence;
the loop result records stop reason SUCCESS after exhausting the step
budget. -/
theorem claim_C7_counterexample :
    AgentBench.exampleStateAfterRun.budget_remaining_steps = 0
    ∧ AgentBench.checkStopConditions AgentBench.exampleRunBudget
        AgentBench.exampleStateAfterRun = some AgentBench.StopReason.SUCCESS
    ∧ AgentBench.checkStopConditions AgentBench.exampleRunBudget
        AgentBench.exampleStateAfterRun ≠ some AgentBench.StopReason.MAX_STEPS
    ∧ (AgentBench.agentLoopRun AgentBench.exampleRunEnv
        AgentBench.exampleRunBudget (AgentBench.chars "r")
        (AgentBench.chars "t") 1 (AgentBench.chars "F") 3).2
      = some { success := true, stop_reason := AgentBench.StopReason.SUCCESS,
               steps_taken := 1, patches_applied := [],
               final_test_exit_code := some 0, final_test_passed := true } :=
  ⟨by decide, by decide, by decide, by decide⟩

/-- Prepending a decide-execute-update block to a trace that is empty or
starts with a decide preserves the loop-trace shape. -/
theorem isLoopTrace_block (t : AgentBench.ToolName)
    (rest : List AgentBench.SideEffect)
    (hshape : rest = [] ∨ ∃ u, rest = AgentBench.SideEffect.decide :: u)
    (hrest : AgentBench.isLoopTrace rest = true) :
    AgentBench.isLoopTrace (.decide :: .execute t :: .update :: rest) = true := by
  rcases hshape with h | ⟨u, h⟩ <;> subst h <;> cases t <;>
    simp [AgentBench.isLoopTrace, hrest]

/-- Prepending the apply-patch block with its auto-run preserves the
loop-trace shape. -/
theorem isLoopTrace_auto_block (rest : List AgentBench.SideEffect)
    (hrest : AgentBench.isLoopTrace rest = true) :
    AgentBench.isLoopTrace
      (.decide :: .execute AgentBench.ToolName.APPLY_PATCH :: .update ::
        .execute AgentBench.ToolName.RUN :: .update :: rest) = true := by
  simpa [AgentBench.isLoopTrace] using hrest

/-- Every trace the loop iteration emits is a sequence of
decide-execute-update blocks, where a successful APPLY_PATCH block
carries the auto-run execution and second update, possibly ending with a
lone decide; moreover the trace is empty or starts with a decide. -/
theorem loopGo_trace_shape (env : AgentBench.LoopEnv)
    (budget : AgentBench.AgentBudget) :
    ∀ fuel n state,
      AgentBench.isLoopTrace (AgentBench.loopGo env budget fuel n state).1 = true
      ∧ ((AgentBench.loopGo env budget fuel n state).1 = []
        ∨ ∃ u, (AgentBench.loopGo env budget fuel n state).1
            = AgentBench.SideEffect.decide :: u) := by
  intro fuel
  induction fuel with
  | zero => exact fun n state => ⟨rfl, Or.inl rfl⟩
  | succ fuel ih =>
    intro n state
    simp only [AgentBench.loopGo]
    split
    · exact ⟨rfl, Or.inl rfl⟩
    · split
      · exact ⟨rfl, Or.inr ⟨[], rfl⟩⟩
      · split
        · exact ⟨rfl, Or.inr ⟨[], rfl⟩⟩
        · split
          · exact ⟨rfl, Or.inr ⟨[], rfl⟩⟩
          · split
            · exact ⟨isLoopTrace_block _ [] (Or.inl rfl) rfl, Or.inr ⟨_, rfl⟩⟩
            · split
              · next hap =>
                rw [hap.1]
                split
                · exact ⟨isLoopTrace_auto_block [] rfl, Or.inr ⟨_, rfl⟩⟩
                · obtain ⟨h1, h2⟩ := ih (n + 2) (AgentBench.updateState budget
                    (env.elapsedAt (n + 1)) (env.fallbackAt (n + 1)) _ _ _)
                  exact ⟨by simpa using isLoopTrace_auto_block _ h1,
                    Or.inr ⟨_, rfl⟩⟩
              · split
                · exact ⟨isLoopTrace_block _ [] (Or.inl rfl) rfl, Or.inr ⟨_, rfl⟩⟩
                · obtain ⟨h1, h2⟩ := ih (n + 1) (AgentBench.updateState budget
                    (env.elapsedAt n) (env.fallbackAt n) _ _ _)
                  exact ⟨by simpa using isLoopTrace_block _ _ h2 h1,
                    Or.inr ⟨_, rfl⟩⟩

/-- C2 (amended): the externally observable side-effect order of the
agent loop is one decide, one tool execution and one state update per
step, except that a step whose APPLY_PATCH succeeds additionally
executes an automatic RUN of the task test command and performs a second
state update before the next decide; a step may also end the run at its
decide. -/
theorem claim_C2_loop_trace (env : AgentBench.LoopEnv)
    (budget : AgentBench.AgentBudget) (run_id task_id : AgentBench.PyStr)
    (initExit : Int) (initOutput : AgentBench.PyStr) (fuel : Nat) :
    AgentBench.isLoopTrace
      (AgentBench.agentLoopRun env budget run_id task_id initExit initOutput
        fuel).1 = true := by
  unfold AgentBench.agentLoopRun
  split
  · rfl
  · exact (loopGo_trace_shape env budget fuel 0 _).1

/-- Counterexample for C2 as stated: a loop run whose first decide
returns a successful APPLY_PATCH emits two tool executions and two state
updates after that single decide (the patch itself and the automatic RUN
of the test command), so the trace is not in strict
one-decide-one-execute-one-update form. -/
theorem claim_C2_counterexample :
    (AgentBench.agentLoopRun AgentBench.exampleApEnv AgentBench.exampleApBudget
        (AgentBench.chars "r") (AgentBench.chars "t") 1
        (AgentBench.chars "F") 3).1
      = [.decide, .execute AgentBench.ToolName.APPLY_PATCH, .update,
         .execute AgentBench.ToolName.RUN, .update, .decide]
    ∧ AgentBench.isStrictStepTrace
        (AgentBench.agentLoopRun AgentBench.exampleApEnv
          AgentBench.exampleApBudget (AgentBench.chars "r")
          (AgentBench.chars "t") 1 (AgentBench.chars "F") 3).1 = false :=
  ⟨by decide, by decide⟩

/-- C9: a RUN request whose command, after whitespace normalisation,
contains the task's test command as a substring is recognised as the
test command, and the command handed to the sandbox is exactly
`cd repo && <test command>` (or the bare test command when no `repo/`
subdirectory exists) — never the agent's literal command text. -/
theorem claim_C9_test_command_rewrite (repoSeparate : Bool)
    (test_command command : AgentBench.PyStr)
    (h : AgentBench.containsSub (AgentBench.normalizeWs command)
        (AgentBench.normalizeWs test_command) = true) :
    AgentBench.is_test_command test_command command = true
    ∧ AgentBench.runCommandExecuted repoSeparate test_command command
      = (if repoSeparate then AgentBench.chars "cd repo && " ++ test_command
         else test_command) := by
  have hit : AgentBench.is_test_command test_command command = true := by
    simp only [AgentBench.is_test_command, h, Bool.true_or]
  refine ⟨hit, ?_⟩
  simp only [AgentBench.runCommandExecuted, hit, if_true]
  cases repoSeparate
  · simp [List.intercalate]
  · simp [List.intercalate, AgentBench.chars]

/-- Witness for C9: `cd repo && pytest -q` contains the test command
`pytest -q` and is rewritten to exactly `cd repo && pytest -q`. -/
theorem claim_C9_witness :
    AgentBench.is_test_command (AgentBench.chars "pytest -q")
      (AgentBench.chars "cd repo&&   pytest  -q") = true
    ∧ AgentBench.runCommandExecuted true (AgentBench.chars "pytest -q")
        (AgentBench.chars "cd repo&&   pytest  -q")
      = (if true then
          AgentBench.chars "cd repo && " ++ AgentBench.chars "pytest -q"
        else AgentBench.chars "pytest -q") :=
  claim_C9_test_command_rewrite true (AgentBench.chars "pytest -q")
    (AgentBench.chars "cd repo&&   pytest  -q") (by decide)

/-- Taking the last `k` elements of a list not longer than `k` returns
the whole list. -/
theorem takeLast_of_le {α : Type} (k : Nat) (l : List α) (h : l.length ≤ k) :
    AgentBench.takeLast k l = l := by
  unfold AgentBench.takeLast
  have hz : l.length - k = 0 := by omega
  rw [hz, List.drop_zero]

/-- The head segment plus the deque contents are the whole file when it
has at most 10000 lines. -/
theorem take_append_takeLast {α : Type} (l : List α) (h : l.length ≤ 10000) :
    l.take 5000 ++ AgentBench.takeLast 5000 (l.drop 5000) = l := by
  rw [takeLast_of_le 5000 (l.drop 5000) (by rw [List.length_drop]; omega)]
  exact List.take_append_drop _ _

/-- The deque contents of the post-5000 remainder are the last 5000
lines of the file when it has more than 10000 lines. -/
theorem takeLast_drop {α : Type} (l : List α) (h : 10000 < l.length) :
    AgentBench.takeLast 5000 (l.drop 5000) = AgentBench.takeLast 5000 l := by
  unfold AgentBench.takeLast
  rw [List.length_drop, List.drop_drop]
  have harith : 5000 + (l.length - 5000 - 5000) = l.length - 5000 := by omega
  rw [harith]

/-- C10: READ_FILE ignores `start_line` and `end_line`: for any two
parameter records the result is identical; the reported `start_line` is
always 1; `truncated` is set exactly when the file exceeds 10000 lines;
the content is the whole file below that bound and otherwise the first
5000 lines, the explicit `... [truncated] ...` marker, and the last 5000
lines. -/
theorem claim_C10_read_file_ignores_range (p q : AgentBench.ReadFileParams)
    (fileLines : List AgentBench.PyStr) :
    AgentBench.read_file p fileLines = AgentBench.read_file q fileLines
    ∧ (AgentBench.read_file p fileLines).start_line = 1
    ∧ (AgentBench.read_file p fileLines).truncated
        = decide (10000 < fileLines.length)
    ∧ (AgentBench.read_file p fileLines).content
        = (if 10000 < fileLines.length then
            AgentBench.joinNl (fileLines.take 5000)
              ++ AgentBench.chars "\n\n... [truncated] ...\n\n"
              ++ AgentBench.joinNl (AgentBench.takeLast 5000 fileLines)
          else AgentBench.joinNl fileLines) := by
  refine ⟨rfl, ?_, ?_, ?_⟩
  · simp only [AgentBench.read_file]
    split <;> rfl
  · simp only [AgentBench.read_file]
    split
    · next hle =>
      symm
      simp only [decide_eq_false_iff_not]
      omega
    · next hgt =>
      symm
      simp only [decide_eq_true_eq]
      omega
  · simp only [AgentBench.read_file]
    split
    · next hle =>
      rw [if_neg (by omega : ¬10000 < fileLines.length)]
      exact congrArg AgentBench.joinNl (take_append_takeLast fileLines hle)
    · next hgt =>
      rw [if_pos (by omega : 10000 < fileLines.length),
        takeLast_drop fileLines (by omega)]

/-- C3 (code evaluated at the failing input): in strict mode, on a
canonical unified diff every one of whose dry runs fails (and which is
not a context patch), `apply_patch` still returns a success result — the
guarded error return is skipped because its condition also requires
non-strict mode, and the unchecked real apply falls through to success.
The claim (and the spec) say every unapplicable patch yields a
`patch_hunk_fail` error. -/
theorem claim_C3_strict_unapplicable_success :
    (∀ t, AgentBench.exampleFailPatchEnv.dryRunExit t ≠ 0)
    ∧ AgentBench.apply_patch AgentBench.exampleFailPatchEnv true
        AgentBench.exampleDiffText
      = .success [AgentBench.chars "src/f.py"]
          AgentBench.exampleDiffText.length :=
  ⟨fun t => by simp [AgentBench.exampleFailPatchEnv], by decide⟩

/-- C5 (amended): for every non-scripted entrypoint, a run that produces
an agent result appends `agent_finished` as the very last record of
`events.jsonl`; the scripted agent's event stream never contains an
`agent_finished` event at all. -/
theorem claim_C5_agent_finished_last (entrypoint : AgentBench.PyStr)
    (o : AgentBench.ScriptedOutcome) (loopEvents : List AgentBench.EventType)
    (hne : entrypoint ≠ AgentBench.chars "scripted") :
    (AgentBench.run_agent_attempt_events entrypoint o loopEvents true).getLast?
      = some AgentBench.EventType.agent_finished
    ∧ AgentBench.EventType.agent_finished ∉ AgentBench.scriptedRunEvents o := by
  constructor
  · unfold AgentBench.run_agent_attempt_events
    rw [if_neg hne]
    simp
  · unfold AgentBench.scriptedRunEvents
    split <;> split <;> first
      | decide
      | (split <;> first
          | decide
          | (split <;> decide))

/-- Witness for C5 with the `llm_v0` entrypoint. -/
theorem claim_C5_witness :
    (AgentBench.run_agent_attempt_events (AgentBench.chars "llm_v0")
        ⟨false, 0, false, false⟩ [] true).getLast?
      = some AgentBench.EventType.agent_finished
    ∧ AgentBench.EventType.agent_finished
        ∉ AgentBench.scriptedRunEvents ⟨false, 0, false, false⟩ :=
  claim_C5_agent_finished_last (AgentBench.chars "llm_v0")
    ⟨false, 0, false, false⟩ [] (by decide)

/-- Counterexample for C5 as stated: a scripted run produces an agent
result, yet its `events.jsonl` ends in `agent_turn_finished` and contains
no `agent_finished` event, because the runner creates no event logger for
the scripted entrypoint and the scripted agent never logs one. -/
theorem claim_C5_counterexample :
    (AgentBench.run_agent_attempt_events (AgentBench.chars "scripted")
        ⟨false, 0, false, false⟩ [] true).getLast?
      = some AgentBench.EventType.agent_turn_finished
    ∧ AgentBench.EventType.agent_finished
        ∉ AgentBench.run_agent_attempt_events (AgentBench.chars "scripted")
            ⟨false, 0, false, false⟩ [] true :=
  ⟨by decide, by decide⟩

/-- C8: when clone, checkout, setup (or no setup at all) and the
post-setup git inspection all succeed with a clean worktree, and the test
command then exits 0, baseline validation returns the
`baseline_not_failing` failure kind (invalid, recorded exit code 0), and
the runner's baseline gate never enters the agent loop for that
attempt. -/
theorem claim_C8_baseline_not_failing (env : AgentBench.BaselineEnv)
    (h1 : env.cloneExit = 0) (h2 : env.checkoutExit = 0)
    (h3 : AgentBench.strip
        (List.intercalate (AgentBench.chars " && ") env.setupCommands) = []
      ∨ env.setupExit = 0)
    (h4 : env.statusExit = 0) (h5 : env.diffStatExit = 0)
    (h6 : env.diffExit = 0)
    (h7 : AgentBench.strip env.statusStdout = [])
    (h8 : env.runExit = 0) :
    AgentBench.validate_baseline env
      = { valid := false, exit_code := 0,
          error_reason := some AgentBench.FailureReason.BASELINE_NOT_FAILING }
    ∧ AgentBench.agentLoopEntered (AgentBench.validate_baseline env)
        = false := by
  have hmain : AgentBench.validate_baseline env
      = { valid := false, exit_code := 0,
          error_reason := some AgentBench.FailureReason.BASELINE_NOT_FAILING } := by
    unfold AgentBench.validate_baseline
    rcases h3 with h3 | h3 <;>
      simp [h1, h2, h3, h4, h5, h6, h7, h8]
  
  refine ⟨hmain, ?_⟩
  rw [hmain]
  rfl

/-- Witness for C8 at a concrete baseline whose every stage succeeds but
whose test run exits 0. -/
theorem claim_C8_witness :
    AgentBench.validate_baseline AgentBench.exampleBaselineEnv
      = { valid := false, exit_code := 0,
          error_reason := some AgentBench.FailureReason.BASELINE_NOT_FAILING }
    ∧ AgentBench.agentLoopEntered
        (AgentBench.validate_baseline AgentBench.exampleBaselineEnv)
        = false :=
  claim_C8_baseline_not_failing AgentBench.exampleBaselineEnv
    (by decide) (by decide) (Or.inr (by decide)) (by decide) (by decide)
    (by decide) (by decide) (by decide)
